import Mathlib

set_option maxRecDepth 2000

/-!
Verification of the dividend-analyzer stock-screening service.

The Python sources embedded here are:
  * `src/services/stock_data_scraper.py` — `StockDataScraper.get_lpa_payout`
    (with its inner helper `_extract_value_from_h3`) and
    `StockDataScraper.get_financial_history`;
  * `src/services/stock_analyzer.py` — the six criterion predicates of
    `StockAnalyzer`;
  * `src/app.py` — `calculate_market_volatility` and the `check_stock`
    endpoint handler.

Strings are modelled as `List Char`; machine floats are modelled as `ℚ`
(all the arithmetic the predicates perform — sums, divisions, comparisons —
is exact on the decimal inputs involved).  HTML navigation (BeautifulSoup
look-ups) is modelled by records carrying the text the navigation would
return (`none` when the tag is missing), and network transport by
`Except String`, whose `error` branch corresponds to a raised exception
caught by the surrounding `try/except`.
-/

/-- Python `str.strip()`: drop whitespace from both ends. -/
def pyStrip (s : List Char) : List Char :=
  ((s.dropWhile Char.isWhitespace).reverse.dropWhile Char.isWhitespace).reverse

/-- Python `str.replace(c, "")`: remove every occurrence of the character `c`. -/
def removeChar (c : Char) (s : List Char) : List Char :=
  s.filter (fun x => x ≠ c)

/-- Python `str.replace(a, b)` for single characters. -/
def replaceChar (a b : Char) (s : List Char) : List Char :=
  s.map (fun x => if x = a then b else x)

/-- Numeric value of a decimal digit, `none` on a non-digit. -/
def digitVal (c : Char) : Option ℕ :=
  if c.isDigit then some (c.toNat - ('0').toNat) else none

/-- Longest prefix of decimal digits, returned with the remaining characters. -/
def readDigits : List Char → List ℕ × List Char
  | [] => ([], [])
  | c :: rest =>
    match digitVal c with
    | none => ([], c :: rest)
    | some d =>
      let p := readDigits rest
      (d :: p.1, p.2)

/-- Value of a digit list read most-significant first. -/
def natFromDigits (ds : List ℕ) : ℕ :=
  ds.foldl (fun a d => 10 * a + d) 0

/-- Python `float(s)` on the plain decimal literals that occur in scraped
numeric cells: optional surrounding whitespace, optional sign, an integer
part and/or a fractional part separated by a dot.  (Exponent, `inf`/`nan`
and underscore forms never arise from the scraper's normalization and are
not modelled.)  Returns `none` where `float` raises `ValueError`. -/
def parseFloat (s0 : List Char) : Option ℚ :=
  let s1 := pyStrip s0
  let sgnRest : ℚ × List Char :=
    match s1 with
    | '+' :: r => (1, r)
    | '-' :: r => (-1, r)
    | r => (1, r)
  let ip := readDigits sgnRest.2
  match ip.2 with
  | [] => if ip.1.isEmpty then none else some (sgnRest.1 * (natFromDigits ip.1 : ℚ))
  | '.' :: r =>
    let fp := readDigits r
    if !fp.2.isEmpty then none
    else if ip.1.isEmpty && fp.1.isEmpty then none
    else some (sgnRest.1 *
      ((natFromDigits ip.1 : ℚ) + (natFromDigits fp.1 : ℚ) / (10 : ℚ) ^ fp.1.length))
  | _ => none

/-- Normalization performed by `_extract_value_from_h3` on the `<strong>` text:
`valor_span.text.strip().replace(".", "").replace(",", ".").replace("%", "")`. -/
def normalizeH3 (s : List Char) : List Char :=
  removeChar '%' (replaceChar ',' '.' (removeChar '.' (pyStrip s)))

/-- Normalization performed on table cells in `get_financial_history`:
`td.text.strip().replace('.', '').replace(',', '.')` (no percent stripping). -/
def normalizeCell (s : List Char) : List Char :=
  replaceChar ',' '.' (removeChar '.' (pyStrip s))

/-- `_extract_value_from_h3`: `none` when the `<h3>`/`<strong>` pair is missing,
otherwise the normalized text parsed with `float`, `none` on `ValueError`. -/
def extract_value_from_h3 (txt : Option (List Char)) : Option ℚ :=
  match txt with
  | none => none
  | some t => parseFloat (normalizeH3 t)

/-- Result record of `get_lpa_payout`: the dict `{"lpa": ..., "payout": ...}`. -/
structure LpaPayout where
  lpa : Option ℚ
  payout : Option ℚ
deriving DecidableEq, Repr

/-- What BeautifulSoup navigation yields on the fetched page: for each label
(`"LPA"`, `"PAYOUT"`), the text of the first `<strong>` following the matching
`<h3>`, or `none` when either tag is missing. -/
structure LpaPayoutPage where
  lpaText : Option (List Char)
  payoutText : Option (List Char)
deriving DecidableEq

/-- `StockDataScraper.get_lpa_payout`: the whole body runs under
`try/except Exception`, so a transport failure (modelled by `Except.error`)
yields the all-null record `{"lpa": None, "payout": None}`. -/
def get_lpa_payout (fetch : Except String LpaPayoutPage) : LpaPayout :=
  match fetch with
  | .error _ => ⟨none, none⟩
  | .ok page => ⟨extract_value_from_h3 page.lpaText, extract_value_from_h3 page.payoutText⟩

/-- The collection loop of `get_financial_history` over the (already
normalized) cell texts: `for val in ...: try: parsed_values.append(float(val));
if len(parsed_values) == 3: break; except ValueError: continue`. -/
def collectLoop : List (List Char) → List ℚ → List ℚ
  | [], acc => acc
  | v :: rest, acc =>
    match parseFloat v with
    | none => collectLoop rest acc
    | some x =>
      let acc2 := acc ++ [x]
      if acc2.length = 3 then acc2 else collectLoop rest acc2

/-- Annual-profit extraction from the matched row's `<td>` cells:
normalize each cell, iterate over `reversed(values)` collecting up to 3
parsed floats, then `list(reversed(parsed_values))`. -/
def annualFromCells (cells : List (List Char)) : List ℚ :=
  let values := cells.map normalizeCell
  (collectLoop values.reverse []).reverse

/-- What BeautifulSoup navigation yields for `get_financial_history`:
the `<td>` texts of the annual "Lucro Líquido" row (`none` when the heading,
table or row is missing) and the text of the first `<td>` of the quarterly
row (`none` when that heading, table, row or cell is missing). -/
structure FinHistPage where
  annualRowCells : Option (List (List Char))
  quarterlyFirstCellText : Option (List Char)
deriving DecidableEq

/-- Result record of `get_financial_history`:
`{"lucros_anuais": ..., "lucro_ultimo_trimestre": ...}`. -/
structure FinHistory where
  lucros_anuais : List ℚ
  lucro_ultimo_trimestre : Option ℚ
deriving DecidableEq, Repr

/-- `StockDataScraper.get_financial_history`: runs under `try/except`, so a
transport failure yields `{"lucros_anuais": [], "lucro_ultimo_trimestre": None}`;
a missing annual section/table/row leaves the list empty and a missing
quarterly section/table/row/cell leaves the quarter profit `None`. -/
def get_financial_history (fetch : Except String FinHistPage) : FinHistory :=
  match fetch with
  | .error _ => ⟨[], none⟩
  | .ok page =>
    let lucros_anuais :=
      match page.annualRowCells with
      | none => []
      | some cells => annualFromCells cells
    let lucro_ultimo_trimestre :=
      match page.quarterlyFirstCellText with
      | none => none
      | some t => parseFloat (normalizeCell t)
    ⟨lucros_anuais, lucro_ultimo_trimestre⟩

/-- `StockAnalyzer.verificar_lucro_positivo_ultimo_trimestre`: `None` fails,
otherwise the last-quarter profit must be strictly positive. -/
def verificar_lucro_positivo_ultimo_trimestre (lucro_ultimo_trimestre : Option ℚ) : Bool :=
  match lucro_ultimo_trimestre with
  | none => false
  | some v => decide (0 < v)

/-- The consecutive-pairs loop of `verificar_lucros_crescentes_3_anos`:
`for i in range(len(l) - 1): if l[i+1] <= l[i]: crescente = False; break`. -/
def crescenteLoop : List ℚ → Bool
  | [] => true
  | [_] => true
  | a :: b :: rest => if b ≤ a then false else crescenteLoop (b :: rest)

/-- `StockAnalyzer.verificar_lucros_crescentes_3_anos`: fewer than 3 annual
profits fail; otherwise every later value must exceed its predecessor. -/
def verificar_lucros_crescentes_3_anos (lucros_anuais : List ℚ) : Bool :=
  if lucros_anuais.length < 3 then false else crescenteLoop lucros_anuais

/-- `StockAnalyzer.verificar_limites_payout`: `None` fails, otherwise
`payout_valor >= 0.30 and payout_valor <= 5.00`. -/
def verificar_limites_payout (payout_valor : Option ℚ) : Bool :=
  match payout_valor with
  | none => false
  | some v => decide ((3/10 : ℚ) ≤ v) && decide (v ≤ (5 : ℚ))

/-- Insertion into an ascending-sorted list (helper for `sortAsc`). -/
def insertSorted (x : ℚ) : List ℚ → List ℚ
  | [] => [x]
  | y :: ys => if x ≤ y then x :: y :: ys else y :: insertSorted x ys

/-- Ascending insertion sort, modelling the sort pandas performs inside
`Series.quantile`. -/
def sortAsc (l : List ℚ) : List ℚ :=
  l.foldr insertSorted []

/-- Floor of a nonnegative rational as a natural number (the index part of
pandas' quantile position, which is always nonnegative). -/
def ratFloorNat (q : ℚ) : ℕ :=
  q.num.toNat / q.den

/-- `pandas.Series.quantile(q)` with the default `interpolation='linear'`:
sort ascending, take position `h = q * (n - 1)`, and linearly interpolate
between the surrounding entries. -/
def quantileLinear (xs : List ℚ) (q : ℚ) : ℚ :=
  let s := sortAsc xs
  let n := s.length
  let h : ℚ := q * ((n : ℚ) - 1)
  let i : ℕ := ratFloorNat h
  let g : ℚ := h - (i : ℚ)
  s.getD i 0 + g * (s.getD (i+1) 0 - s.getD i 0)

/-- `StockAnalyzer.verificar_menos_volatil`.  The subject's annualized
volatility (`hist_data['Close'].pct_change().dropna().std() * sqrt(252)`)
is taken as the already-computed parameter `volatilidade_anualizada`, with
`none` standing for the empty-or-shorter-than-2 price history that makes the
function return `False` before the comparison (the √252 scaling lives in the
reals; only the comparison against the benchmark decile is decided here).
`bench = none` models the `volatilidade_outras_acoes is None` default and an
empty list models an empty benchmark series: both fail the criterion. -/
def verificar_menos_volatil (volatilidade_anualizada : Option ℚ)
    (volatilidade_outras_acoes : Option (List ℚ)) : Bool :=
  match volatilidade_anualizada with
  | none => false
  | some vol =>
    match volatilidade_outras_acoes with
    | none => false
    | some xs =>
      if xs.isEmpty then false
      else decide (vol < quantileLinear xs (9/10))

/-- One dividend cash amount, tagged with its age in days before the
evaluation date (`end_date` in the source). -/
structure DivEntry where
  age : ℕ
  amount : ℚ
deriving DecidableEq, Repr

/-- `dividends.index >= end_date - timedelta(days=365)`. -/
def in12m (e : DivEntry) : Bool := e.age ≤ 365

/-- `index >= end_date - 2*365d` and `index < end_date - 365d`. -/
def in24m (e : DivEntry) : Bool := 365 < e.age && e.age ≤ 730

/-- `index >= end_date - 3*365d` and `index < end_date - 2*365d`. -/
def in36m (e : DivEntry) : Bool := 730 < e.age && e.age ≤ 1095

/-- `dividends[mask].sum()` for one 12-month window. -/
def bucketSum (p : DivEntry → Bool) (ds : List DivEntry) : ℚ :=
  ((ds.filter p).map DivEntry.amount).sum

/-- The `pesos` dict: each key may be absent (`Option`), read back with
`pesos.get(key, 0)`. -/
structure Pesos where
  w12 : Option ℚ
  w24 : Option ℚ
  w36 : Option ℚ
deriving DecidableEq

/-- The default weights `{'12m': 0.5, '24m': 0.3, '36m': 0.2}` installed when
the caller passes `pesos=None`. -/
def Pesos.padrao : Pesos :=
  ⟨some (1/2), some (3/10), some (1/5)⟩

/-- `StockAnalyzer.verificar_altos_dividendos_ponderados`.  `data = none`
models an empty 36-month download (`hist_data.empty`, immediately `False`);
otherwise `data = some (ds, current_price)` carries the dividend series and
the last close.  Mirrors the source: zero price fails, each window's yield is
`sum/current_price` (guarded by `if current_price > 0 else 0`), weights are
read with `pesos.get(key, 0)`, and the weighted yield must reach
`dy_minimo_ponderado`. -/
def verificar_altos_dividendos_ponderados (data : Option (List DivEntry × ℚ))
    (pesos : Option Pesos) (dy_minimo_ponderado : ℚ) : Bool :=
  let ps := pesos.getD Pesos.padrao
  match data with
  | none => false
  | some dp =>
    let ds := dp.1
    let current_price := dp.2
    if current_price = 0 then false
    else
      let dy12 := if 0 < current_price then bucketSum in12m ds / current_price else 0
      let dy24 := if 0 < current_price then bucketSum in24m ds / current_price else 0
      let dy36 := if 0 < current_price then bucketSum in36m ds / current_price else 0
      let dy_ponderado := dy12 * ps.w12.getD 0 + dy24 * ps.w24.getD 0 + dy36 * ps.w36.getD 0
      decide (dy_minimo_ponderado ≤ dy_ponderado)

/-- `StockAnalyzer.verificar_liquidez_minima`: over the 90-day history of
`(close, volume)` rows, the mean of `close * volume` must reach the minimum
daily financial volume; an empty download fails. -/
def verificar_liquidez_minima (hist : List (ℚ × ℚ)) (volume_minimo_diario_brl : ℚ := 3000000) : Bool :=
  if hist.isEmpty then false
  else decide (volume_minimo_diario_brl ≤ (hist.map (fun p => p.1 * p.2)).sum / (hist.length : ℚ))

/-- `Series.pct_change().dropna()`: single-period percentage returns
(the first `NaN` row is dropped, leaving `n - 1` returns). -/
def pctChange : List ℚ → List ℚ
  | [] => []
  | [_] => []
  | a :: b :: rest => (b - a) / a :: pctChange (b :: rest)

/-- `app.calculate_market_volatility`.  `download = none` models an empty
batched download (the function then returns an empty series; a raised
exception is logged and likewise leaves the dict empty); otherwise each
benchmark ticker is paired with its close-price column (`none` when the
ticker is missing from the downloaded columns).  The annualized-volatility
formula `returns.std() * np.sqrt(252)` involves real square roots, so it is
abstracted as the parameter `volfn` applied to the ticker's return series;
which tickers are inserted — the content of claim C9 — is independent of it. -/
def calculate_market_volatility (volfn : List ℚ → ℚ)
    (download : Option (List (String × Option (List ℚ)))) : List (String × ℚ) :=
  match download with
  | none => []
  | some data =>
    data.foldr
      (fun p acc =>
        match p.2 with
        | none => acc
        | some closes =>
          let returns := pctChange closes
          if returns.isEmpty then acc else (p.1, volfn returns) :: acc)
      []

/-- The JSON payload assembled by `app.check_stock`. -/
structure ScreeningResult where
  ticker : String
  liquidez_minima : Bool
  lucro_positivo_ult_trimestre : Bool
  lucros_crescentes_3_anos : Bool
  limites_payout : Bool
  menos_volatil : Bool
  altos_dividendos : Bool
  todos_criterios_atendidos : Bool
  erros : List String
deriving DecidableEq, Repr

/-- `app.check_stock`, with the external observations it consumes made
explicit: the two scraper fetches, the 90-day `(close, volume)` history used
by the liquidity criterion, the subject's annualized volatility (with `none`
for an insufficient 365-day history), the process-wide benchmark series
(`none` only before setup), and the 36-month dividend download.  Returns the
response record together with the HTTP status, which on this exception-free
model is always 200. -/
def check_stock (ticker : String)
    (lpaFetch : Except String LpaPayoutPage)
    (finFetch : Except String FinHistPage)
    (liqHist : List (ℚ × ℚ))
    (volSubject : Option ℚ)
    (benchmark : Option (List ℚ))
    (divData : Option (List DivEntry × ℚ)) : ScreeningResult × ℕ :=
  let ticker_upper := ticker.toUpper
  let lpa_payout_data := get_lpa_payout lpaFetch
  let financial_history_data := get_financial_history finFetch
  let erros1 : List String :=
    if lpa_payout_data.lpa.isSome && lpa_payout_data.payout.isSome then []
    else ["Não foi possível obter dados de LPA/Payout via scraping. Verifique a estrutura do site."]
  let erros2 : List String :=
    if financial_history_data.lucro_ultimo_trimestre.isSome
        && !financial_history_data.lucros_anuais.isEmpty then []
    else ["Não foi possível obter histórico de lucros via scraping. Verifique a estrutura do site."]
  let liquidez_minima := verificar_liquidez_minima liqHist
  let lucro_positivo := verificar_lucro_positivo_ultimo_trimestre
    financial_history_data.lucro_ultimo_trimestre
  let lucros_crescentes := verificar_lucros_crescentes_3_anos
    financial_history_data.lucros_anuais
  let limites := verificar_limites_payout lpa_payout_data.payout
  let volPair : Bool × List String :=
    match benchmark with
    | some xs => (verificar_menos_volatil volSubject (some xs), [])
    | none => (false, ["Dados de volatilidade do mercado não disponíveis para comparação."])
  let menos_volatil := volPair.1
  let erros3 := volPair.2
  let altos_dividendos := verificar_altos_dividendos_ponderados divData none (4/100)
  let todos := liquidez_minima && lucro_positivo && lucros_crescentes
    && limites && menos_volatil && altos_dividendos
  (⟨ticker_upper, liquidez_minima, lucro_positivo, lucros_crescentes, limites,
    menos_volatil, altos_dividendos, todos, erros1 ++ erros2 ++ erros3⟩, 200)

/-- Modelled from the spec's words, for comparison with `annualFromCells`
(claim C2): with the row's cells in source order and that order newest-first,
"parses from newest to oldest, taking up to 3 successfully-parsed numeric
values, discarding unparsable cells, then reverses the collected values into
chronological order" — i.e. the first (newest) up-to-3 parsable values,
reversed. -/
def claimedAnnualNewestFirst (cells : List (List Char)) : List ℚ :=
  (((cells.map normalizeCell).filterMap parseFloat).take 3).reverse

theorem collectLoop_eq (l : List (List Char)) (acc : List ℚ) (h : acc.length < 3) :
    collectLoop l acc = acc ++ (l.filterMap parseFloat).take (3 - acc.length) := by
  induction l generalizing acc with
  | nil => simp [collectLoop]
  | cons v rest ih =>
    rw [collectLoop]
    cases hp : parseFloat v with
    | none => simp [List.filterMap_cons, hp, ih acc h]
    | some x =>
      simp only [List.filterMap_cons, hp]
      by_cases h3 : (acc ++ [x]).length = 3
      · rw [if_pos h3]
        have hlen : acc.length = 2 := by
          simp only [List.length_append, List.length_cons, List.length_nil] at h3
          omega
        have h1 : 3 - acc.length = 1 := by omega
        rw [h1, List.take_succ_cons, List.take_zero]
      · rw [if_neg h3]
        have hlt : (acc ++ [x]).length < 3 := by
          simp only [List.length_append, List.length_cons, List.length_nil] at h3 ⊢
          omega
        rw [ih (acc ++ [x]) hlt]
        have h1 : 3 - acc.length = (3 - (acc ++ [x]).length) + 1 := by
          simp only [List.length_append, List.length_cons, List.length_nil] at hlt ⊢
          omega
        rw [h1, List.take_succ_cons, List.append_assoc, List.singleton_append]

theorem annualFromCells_eq (cells : List (List Char)) :
    annualFromCells cells
      = (((cells.map normalizeCell).filterMap parseFloat).reverse.take 3).reverse := by
  show (collectLoop ((cells.map normalizeCell).reverse) []).reverse = _
  rw [collectLoop_eq _ [] (by simp), List.filterMap_reverse]
  simp

/-- C1: the adapter's locale normalization does strip thousands separators,
convert the decimal comma and strip the percent sign, but it stores the
percent-stripped number as-is: the text "45%" parses to `45`, not to the
decimal fraction `0.45` the spec claims (no division by 100 anywhere in
`_extract_value_from_h3`), even though the downstream payout-bounds check
documents its input "em formato decimal, ex: 0.45". -/
theorem C1_percent_stored_undivided :
    normalizeH3 (['1', '.', '2', '3', '4', ',', '5', '6', '%'])
      = ['1', '2', '3', '4', '.', '5', '6']
    ∧ extract_value_from_h3 (some (['4', '5', '%'])) = some 45
    ∧ (45 : ℚ) ≠ 45/100 := by
  refine ⟨?_, ?_, ?_⟩ <;> with_unfolding_all decide

/-- C2 (counterexample): with the row's numeric cells in newest-first source
order `["40", "30", "20", "10"]`, the extractor returns `[30, 20, 10]` — the
three OLDEST values in newest-first order — while the claim ("parses from
newest to oldest ... reverses into true chronological order") would require
`[20, 30, 40]`. -/
theorem C2_newest_first_counterexample :
    annualFromCells [['4', '0'], ['3', '0'], ['2', '0'], ['1', '0']] = [30, 20, 10]
    ∧ claimedAnnualNewestFirst [['4', '0'], ['3', '0'], ['2', '0'], ['1', '0']] = [20, 30, 40]
    ∧ annualFromCells [['4', '0'], ['3', '0'], ['2', '0'], ['1', '0']]
        ≠ claimedAnnualNewestFirst [['4', '0'], ['3', '0'], ['2', '0'], ['1', '0']] := by
  refine ⟨?_, ?_, ?_⟩ <;> with_unfolding_all decide

/-- C2 (amended): the extractor iterates the row's cells from LAST to first,
collecting up to 3 successfully-parsed values and discarding unparsable cells
without aborting, then reverses the collected values — so it returns the last
up-to-3 parsable cells of the row in the row's own order (the newest 3 in
chronological order only when the source row is oldest-first), and the
returned list always has length 0 to 3. -/
theorem C2_amended_last_parsables_in_row_order (cells : List (List Char)) :
    annualFromCells cells
      = (((cells.map normalizeCell).filterMap parseFloat).reverse.take 3).reverse
    ∧ (annualFromCells cells).length ≤ 3 := by
  refine ⟨annualFromCells_eq cells, ?_⟩
  rw [annualFromCells_eq cells]
  simp only [List.length_reverse, List.length_take]
  omega

/-- C5: the payout-bounds predicate holds exactly when a payout value is
present and lies in the inclusive interval [0.30, 5.00]; in particular 0.30
and 5.00 pass, 0.2999 fails, and an absent value fails. -/
theorem C5_payout_within_bounds :
    (∀ p : Option ℚ, verificar_limites_payout p = true
      ↔ ∃ v, p = some v ∧ (3/10 : ℚ) ≤ v ∧ v ≤ 5)
    ∧ verificar_limites_payout (some (3/10)) = true
    ∧ verificar_limites_payout (some (2999/10000)) = false
    ∧ verificar_limites_payout (some 5) = true
    ∧ verificar_limites_payout none = false := by
  refine ⟨?_, ?_, ?_, ?_, ?_⟩
  · intro p
    cases p with
    | none => simp [verificar_limites_payout]
    | some v => simp [verificar_limites_payout]
  all_goals with_unfolding_all decide

theorem crescenteLoop_iff : ∀ l : List ℚ, crescenteLoop l = true ↔ l.Chain' (· < ·)
  | [] => by simp [crescenteLoop]
  | [a] => by simp [crescenteLoop]
  | a :: b :: rest => by
    rw [crescenteLoop, List.chain'_cons]
    by_cases h : b ≤ a
    · simp only [if_pos h, Bool.false_eq_true, false_iff, not_and]
      intro hab
      exact absurd hab (not_lt.mpr h)
    · rw [if_neg h, crescenteLoop_iff (b :: rest)]
      simp [not_le.mp h]

/-- C6: the three-year-growth predicate holds exactly when at least 3 annual
profits are present and every later value strictly exceeds its predecessor;
`[10, 10, 20]` fails, `[10, 15, 20]` passes, and any list shorter than 3
fails. -/
theorem C6_three_year_profit_growth :
    (∀ l : List ℚ, verificar_lucros_crescentes_3_anos l = true
      ↔ 3 ≤ l.length ∧ l.Chain' (· < ·))
    ∧ verificar_lucros_crescentes_3_anos [10, 10, 20] = false
    ∧ verificar_lucros_crescentes_3_anos [10, 15, 20] = true
    ∧ (∀ l : List ℚ, l.length < 3 → verificar_lucros_crescentes_3_anos l = false) := by
  refine ⟨?_, by with_unfolding_all decide, by with_unfolding_all decide, ?_⟩
  · intro l
    rw [verificar_lucros_crescentes_3_anos]
    by_cases h : l.length < 3
    · rw [if_pos h]
      simp only [Bool.false_eq_true, false_iff, not_and]
      intro hl
      exact absurd hl (by omega)
    · rw [if_neg h, crescenteLoop_iff l]
      simp [Nat.not_lt.mp h]
  · intro l h
    rw [verificar_lucros_crescentes_3_anos, if_pos h]

theorem C6_witness :
    verificar_lucros_crescentes_3_anos [(1 : ℚ)] = false :=
  C6_three_year_profit_growth.2.2.2 [1] (by simp)

/-- C3: with a positive last close, the weighted-dividend predicate holds
exactly when the weighted sum of the three window yields (window dividend sum
over current price, weighted 0.5/0.3/0.2 by default) reaches the minimum
yield 0.04; an empty download or a zero price fails; the three 12-month
windows are pairwise disjoint; and with window sums {4, 3, 2} at price 100
the weighted yield is 0.033, so the predicate is false. -/
theorem C3_weighted_dividend_yield (ds : List DivEntry) (price : ℚ) (hprice : 0 < price) :
    (verificar_altos_dividendos_ponderados (some (ds, price)) none (4/100) = true
      ↔ (4/100 : ℚ) ≤ bucketSum in12m ds / price * (1/2)
          + bucketSum in24m ds / price * (3/10)
          + bucketSum in36m ds / price * (1/5))
    ∧ verificar_altos_dividendos_ponderados none none (4/100) = false
    ∧ (∀ ds2 : List DivEntry,
        verificar_altos_dividendos_ponderados (some (ds2, 0)) none (4/100) = false)
    ∧ (∀ e : DivEntry,
        ¬(in12m e = true ∧ in24m e = true)
        ∧ ¬(in12m e = true ∧ in36m e = true)
        ∧ ¬(in24m e = true ∧ in36m e = true))
    ∧ verificar_altos_dividendos_ponderados
        (some ([⟨100, 4⟩, ⟨400, 3⟩, ⟨800, 2⟩], 100)) none (4/100) = false := by
  refine ⟨?_, rfl, fun ds2 => ?_, fun e => ?_, by with_unfolding_all decide⟩
  · rw [verificar_altos_dividendos_ponderados]
    simp only [Option.getD_none, Option.getD_some, Pesos.padrao,
      if_neg (ne_of_gt hprice), if_pos hprice, decide_eq_true_eq]
  · rw [verificar_altos_dividendos_ponderados]
    simp
  · simp only [in12m, in24m, in36m, Bool.and_eq_true, decide_eq_true_eq, not_and]
    refine ⟨?_, ?_, ?_⟩ <;> omega

theorem C3_witness :
    (verificar_altos_dividendos_ponderados (some (([] : List DivEntry), (1 : ℚ))) none (4/100) = true
      ↔ (4/100 : ℚ) ≤ bucketSum in12m [] / 1 * (1/2)
          + bucketSum in24m [] / 1 * (3/10)
          + bucketSum in36m [] / 1 * (1/5))
    ∧ verificar_altos_dividendos_ponderados none none (4/100) = false
    ∧ (∀ ds2 : List DivEntry,
        verificar_altos_dividendos_ponderados (some (ds2, 0)) none (4/100) = false)
    ∧ (∀ e : DivEntry,
        ¬(in12m e = true ∧ in24m e = true)
        ∧ ¬(in12m e = true ∧ in36m e = true)
        ∧ ¬(in24m e = true ∧ in36m e = true))
    ∧ verificar_altos_dividendos_ponderados
        (some ([⟨100, 4⟩, ⟨400, 3⟩, ⟨800, 2⟩], 100)) none (4/100) = false :=
  C3_weighted_dividend_yield [] 1 (by decide)

/-- C4: the relative-volatility predicate holds exactly when the subject's
annualized volatility is strictly below the benchmark distribution's
linear-interpolated 90th percentile, and fails whenever the benchmark is
absent or empty (or the subject's own history is too short to yield a
volatility); for the distribution {0.10, 0.20, 0.30, 0.40} the 90th
percentile is 0.37, so subject volatility 0.25 passes and 0.39 fails. -/
theorem C4_relative_volatility (v : ℚ) (b : Option (List ℚ)) (xs : List ℚ)
    (hxs : xs ≠ []) :
    (verificar_menos_volatil (some v) (some xs) = true ↔ v < quantileLinear xs (9/10))
    ∧ verificar_menos_volatil (some v) none = false
    ∧ verificar_menos_volatil (some v) (some []) = false
    ∧ verificar_menos_volatil none b = false
    ∧ quantileLinear [1/10, 2/10, 3/10, 4/10] (9/10) = 37/100
    ∧ verificar_menos_volatil (some (25/100)) (some [1/10, 2/10, 3/10, 4/10]) = true
    ∧ verificar_menos_volatil (some (39/100)) (some [1/10, 2/10, 3/10, 4/10]) = false := by
  refine ⟨?_, rfl, rfl, rfl, by with_unfolding_all decide,
    by with_unfolding_all decide, by with_unfolding_all decide⟩
  rw [verificar_menos_volatil]
  cases xs with
  | nil => exact absurd rfl hxs
  | cons y ys => simp [List.isEmpty]

theorem C4_witness :
    (verificar_menos_volatil (some (0 : ℚ)) (some [(1 : ℚ)]) = true
      ↔ (0 : ℚ) < quantileLinear [1] (9/10))
    ∧ verificar_menos_volatil (some (0 : ℚ)) none = false
    ∧ verificar_menos_volatil (some (0 : ℚ)) (some []) = false
    ∧ verificar_menos_volatil none (none : Option (List ℚ)) = false
    ∧ quantileLinear [1/10, 2/10, 3/10, 4/10] (9/10) = 37/100
    ∧ verificar_menos_volatil (some (25/100)) (some [1/10, 2/10, 3/10, 4/10]) = true
    ∧ verificar_menos_volatil (some (39/100)) (some [1/10, 2/10, 3/10, 4/10]) = false :=
  C4_relative_volatility 0 none [1] (by simp)

/-- C7: a transport or parse failure inside the fundamental-data adapter is
absorbed into the all-null record `{lpa: None, payout: None}` (the adapter
never propagates the exception), and any structural mismatch in the
financial-history extractor — transport failure, missing annual
heading/table/row, missing quarterly heading/table/row/cell, or a row whose
cells are all unparsable — yields the empty annual-profit list and a null
quarterly profit. -/
theorem C7_failures_never_raise (e : String) (page : FinHistPage)
    (cells : List (List Char)) (pt : Option (List Char)) :
    get_lpa_payout (.error e) = ⟨none, none⟩
    ∧ get_financial_history (.error e) = ⟨[], none⟩
    ∧ (∀ t1 : List Char, parseFloat (normalizeH3 t1) = none →
        get_lpa_payout (.ok ⟨some t1, some t1⟩) = ⟨none, none⟩)
    ∧ (page.annualRowCells = none →
        (get_financial_history (.ok page)).lucros_anuais = [])
    ∧ (page.quarterlyFirstCellText = none →
        (get_financial_history (.ok page)).lucro_ultimo_trimestre = none)
    ∧ ((∀ c ∈ cells, parseFloat (normalizeCell c) = none) →
        (get_financial_history (.ok ⟨some cells, pt⟩)).lucros_anuais = []) := by
  refine ⟨rfl, rfl, ?_, ?_, ?_, ?_⟩
  · intro t1 h
    simp [get_lpa_payout, extract_value_from_h3, h]
  · intro h
    simp [get_financial_history, h]
  · intro h
    simp [get_financial_history, h]
  · intro h
    simp only [get_financial_history, annualFromCells_eq, List.reverse_eq_nil_iff,
      List.take_eq_nil_iff, List.filterMap_eq_nil_iff]
    refine Or.inr ?_
    intro a ha
    rcases List.mem_map.mp ha with ⟨c, hc, rfl⟩
    exact h c hc

theorem C7_witness :
    get_lpa_payout (.ok ⟨some (['-']), some (['-'])⟩) = ⟨none, none⟩
    ∧ (get_financial_history (.ok ⟨some ([['-']]), none⟩)).lucros_anuais = [] := by
  refine ⟨(C7_failures_never_raise ("e") ⟨none, none⟩ [['-']] none).2.2.1 ['-']
      (by with_unfolding_all decide),
    (C7_failures_never_raise ("e") ⟨none, none⟩ [['-']] none).2.2.2.2.2
      (by with_unfolding_all decide)⟩

/-- C8: when the scraped fundamental data is fully null (no LPA, no payout,
empty annual profits, null quarterly profit) and the process-wide benchmark
has been initialized, `check_stock` reports criteria 2–4 (positive
last-quarter profit, three-year growth, payout bounds) as false, an aggregate
— the conjunction of all six flags — of false, exactly two advisory error
strings, and HTTP status 200. -/
theorem C8_fully_null_screening (ticker : String)
    (lpaFetch : Except String LpaPayoutPage) (finFetch : Except String FinHistPage)
    (liqHist : List (ℚ × ℚ)) (volSubject : Option ℚ) (bench : List ℚ)
    (divData : Option (List DivEntry × ℚ))
    (h1 : get_lpa_payout lpaFetch = ⟨none, none⟩)
    (h2 : get_financial_history finFetch = ⟨[], none⟩) :
    (check_stock ticker lpaFetch finFetch liqHist volSubject (some bench) divData).1.lucro_positivo_ult_trimestre = false
    ∧ (check_stock ticker lpaFetch finFetch liqHist volSubject (some bench) divData).1.lucros_crescentes_3_anos = false
    ∧ (check_stock ticker lpaFetch finFetch liqHist volSubject (some bench) divData).1.limites_payout = false
    ∧ (check_stock ticker lpaFetch finFetch liqHist volSubject (some bench) divData).1.todos_criterios_atendidos = false
    ∧ (check_stock ticker lpaFetch finFetch liqHist volSubject (some bench) divData).1.erros.length = 2
    ∧ (check_stock ticker lpaFetch finFetch liqHist volSubject (some bench) divData).2 = 200 := by
  simp [check_stock, h1, h2, verificar_lucro_positivo_ultimo_trimestre,
    verificar_lucros_crescentes_3_anos, verificar_limites_payout]

theorem C8_witness :
    (check_stock ("itub4") (.error ("e")) (.error ("e")) [] none (some []) none).1.lucro_positivo_ult_trimestre = false
    ∧ (check_stock ("itub4") (.error ("e")) (.error ("e")) [] none (some []) none).1.lucros_crescentes_3_anos = false
    ∧ (check_stock ("itub4") (.error ("e")) (.error ("e")) [] none (some []) none).1.limites_payout = false
    ∧ (check_stock ("itub4") (.error ("e")) (.error ("e")) [] none (some []) none).1.todos_criterios_atendidos = false
    ∧ (check_stock ("itub4") (.error ("e")) (.error ("e")) [] none (some []) none).1.erros.length = 2
    ∧ (check_stock ("itub4") (.error ("e")) (.error ("e")) [] none (some []) none).2 = 200 :=
  C8_fully_null_screening ("itub4") (.error ("e")) (.error ("e")) [] none [] none rfl rfl

theorem pctChange_eq_nil_iff : ∀ l : List ℚ, pctChange l = [] ↔ l.length < 2
  | [] => by simp [pctChange]
  | [a] => by simp [pctChange]
  | a :: b :: rest => by simp [pctChange]

/-- The membership test `calculate_market_volatility` applies: a ticker enters
the benchmark distribution iff its close column was downloaded and holds at
least 2 observations. -/
def keepTicker (p : String × Option (List ℚ)) : Bool :=
  match p.2 with
  | none => false
  | some closes => decide (2 ≤ closes.length)

/-- C9: the benchmark distribution built by `calculate_market_volatility`
holds an entry exactly for the reference tickers whose downloaded close
series has at least 2 observations (equivalently, a non-empty return series
after differencing); every entry's value is the annualized volatility of that
ticker's returns; tickers with fewer than 2 observations are skipped, never
inserted (with zero or any other value); and a failed batch download yields
an empty distribution. -/
theorem C9_benchmark_membership (volfn : List ℚ → ℚ)
    (data : List (String × Option (List ℚ))) :
    (calculate_market_volatility volfn (some data)).map Prod.fst
      = (data.filter keepTicker).map Prod.fst
    ∧ (∀ t v, (t, v) ∈ calculate_market_volatility volfn (some data) →
        ∃ closes, (t, some closes) ∈ data ∧ 2 ≤ closes.length
          ∧ v = volfn (pctChange closes))
    ∧ calculate_market_volatility volfn none = [] := by
  refine ⟨?_, ?_, rfl⟩
  · show (data.foldr _ []).map Prod.fst = _
    induction data with
    | nil => rfl
    | cons p rest ih =>
      rcases p with ⟨t, col⟩
      cases col with
      | none => simpa [keepTicker] using ih
      | some closes =>
        rw [List.foldr_cons]
        by_cases h2 : 2 ≤ closes.length
        · have hne : (pctChange closes).isEmpty = false := by
            rw [List.isEmpty_eq_false_iff_exists_mem]
            rcases List.exists_mem_of_ne_nil _
              ((not_iff_not.mpr (pctChange_eq_nil_iff closes)).mpr (by omega)) with ⟨x, hx⟩
            exact ⟨x, hx⟩
          simp only [hne, Bool.false_eq_true, if_false, List.map_cons]
          rw [List.filter_cons_of_pos (by simp [keepTicker, h2]), List.map_cons, ih]
        · have hnil : pctChange closes = [] := (pctChange_eq_nil_iff closes).mpr (by omega)
          simp only [hnil, List.isEmpty_nil, if_true]
          rw [List.filter_cons_of_neg (by simp [keepTicker, h2]), ih]
  · show ∀ t v, (t, v) ∈ data.foldr _ [] → _
    induction data with
    | nil => intro t v hmem; simp at hmem
    | cons p rest ih =>
      intro t v hmem
      rcases p with ⟨t0, col⟩
      rw [List.foldr_cons] at hmem
      cases col with
      | none =>
        dsimp only at hmem
        rcases ih t v hmem with ⟨closes, hc, h2, hv⟩
        exact ⟨closes, List.mem_cons_of_mem _ hc, h2, hv⟩
      | some closes =>
        dsimp only at hmem
        by_cases hne : (pctChange closes).isEmpty = true
        · rw [if_pos hne] at hmem
          rcases ih t v hmem with ⟨closes2, hc, h2, hv⟩
          exact ⟨closes2, List.mem_cons_of_mem _ hc, h2, hv⟩
        · rw [if_neg hne] at hmem
          rcases List.mem_cons.mp hmem with heq | htail
          · have h2 : 2 ≤ closes.length := by
              have := (not_iff_not.mpr (pctChange_eq_nil_iff closes)).mp
                (by simpa [List.isEmpty_iff] using hne)
              omega
            rcases Prod.mk.injEq .. ▸ heq with ⟨ht, hv⟩
            exact ⟨closes, by rw [ht]; exact List.mem_cons_self _ _, h2, hv⟩
          · rcases ih t v htail with ⟨closes2, hc, h2, hv⟩
            exact ⟨closes2, List.mem_cons_of_mem _ hc, h2, hv⟩

theorem C9_witness :
    ∃ closes, (("A" : String), some closes) ∈ [(("A" : String), some [(1 : ℚ), 2])]
      ∧ 2 ≤ closes.length
      ∧ (0 : ℚ) = (fun _ : List ℚ => (0 : ℚ)) (pctChange closes) :=
  (C9_benchmark_membership (fun _ => 0) [(("A" : String), some [(1 : ℚ), 2])]).2.1
    ("A") 0 (by with_unfolding_all decide)

/-- C10: a weights dictionary missing a period key behaves exactly as if that
key carried weight 0 (`pesos.get(key, 0)`) — the corresponding bucket
contributes nothing — and the default weights {0.5, 0.3, 0.2} are used
exactly when the whole dictionary is absent; concretely, a basket yielding
8% in the 0–12-month window passes under the defaults but fails when the
caller's dictionary lacks the '12m' key. -/
theorem C10_missing_weight_keys (data : Option (List DivEntry × ℚ)) (m : ℚ)
    (a b : Option ℚ) :
    verificar_altos_dividendos_ponderados data (some ⟨none, a, b⟩) m
      = verificar_altos_dividendos_ponderados data (some ⟨some 0, a, b⟩) m
    ∧ verificar_altos_dividendos_ponderados data (some ⟨a, none, b⟩) m
      = verificar_altos_dividendos_ponderados data (some ⟨a, some 0, b⟩) m
    ∧ verificar_altos_dividendos_ponderados data (some ⟨a, b, none⟩) m
      = verificar_altos_dividendos_ponderados data (some ⟨a, b, some 0⟩) m
    ∧ verificar_altos_dividendos_ponderados data none m
      = verificar_altos_dividendos_ponderados data (some Pesos.padrao) m
    ∧ verificar_altos_dividendos_ponderados (some ([⟨10, 8⟩], 100))
        (some ⟨none, some (3/10), some (1/5)⟩) (4/100) = false
    ∧ verificar_altos_dividendos_ponderados (some ([⟨10, 8⟩], 100)) none (4/100) = true := by
  refine ⟨?_, ?_, ?_, rfl, by with_unfolding_all decide, by with_unfolding_all decide⟩
  all_goals cases data <;> rfl
